import Mathlib

/-!
Verification development for the element-configuration engine in `src/index.js`.

The engine's single export takes a tag (or node), a flat option bag, and child
nodes, and resolves every own key of the bag against the node.  Below is a
shallow embedding of that algorithm:

* JS strings are modelled as `List Char` (written `"lit".data`), so that
  `startsWith`/`slice(1)`/`toLowerCase` become head-pattern matching, `List.drop`
  and `List.map Char.toLower`.
* JS values are the inductive `JSValue`; own keys of the option bag are `JSKey`
  (string or symbol).  Numbers are modelled as integers; `NaN` and floats play
  no role in any verified property.
* The DOM node is a record of its observable surfaces: the `in`-visible
  property surface (`propKeys`, with `throwing` marking properties whose direct
  write raises, e.g. read-only SVG properties), attributes, dataset, class
  list, registered listeners and appended children.  Platform mutation
  primitives (`setAttribute`, `toggleAttribute`, `DOMTokenList.add`,
  `addEventListener`, child append) are modelled as total recorders; the
  platform's attribute-name validation, IDL arity checks and attribute/property
  reflection are outside the model.  String coercion (`String(v)`,
  `DOMStringMap` assignment, `JSON.stringify`) is modelled faithfully enough
  that it fails exactly on symbols, as in JS; the precise text of serialized
  objects is never inspected by a verified property.
* Exceptions (`TypeError` from coercing symbols or from calling `startsWith`
  on a symbol key, and the `ReferenceError` produced by line 68's read of the
  out-of-scope `isSVG`) are modelled with `Except`.  A throwing step discards
  its partial writes; no verified property inspects post-exception state.
* The `document` option holds a foreign `Document` object, which cannot live
  inside `JSValue`; it is modelled as the separate field `Config.document`
  and is not replayed through the key loop (no claim depends on the extra
  `document="..."` attribute the real loop would also set).
-/

abbrev JStr := List Char

/-- Own keys of the option bag: `Reflect.ownKeys` yields strings and symbols. -/
inductive JSKey where
  | str (s : JStr)
  | sym (id : Nat)
deriving DecidableEq

/-- JS runtime values, as far as the resolver can observe them. -/
inductive JSValue where
  | undefined
  | null
  | bool (b : Bool)
  | num (n : Int)
  | str (s : JStr)
  | sym (id : Nat)
  | arr (elems : List JSValue)
  | obj (fields : List (JStr × JSValue))
  | func (id : Nat)

/-- Association-list lookup (first binding wins, as in a JS object). -/
def lookupA {κ ν : Type} [DecidableEq κ] : List (κ × ν) → κ → Option ν
  | [], _ => none
  | (k', v') :: r, k => if k' = k then some v' else lookupA r k

/-- Association-list update: overwrite in place, append when absent. -/
def setA {κ ν : Type} [DecidableEq κ] : List (κ × ν) → κ → ν → List (κ × ν)
  | [], k, v => [(k, v)]
  | (k', v') :: r, k, v => if k' = k then (k, v) :: r else (k', v') :: setA r k v

/-- JS truthiness (`!!v`).  `NaN` is not modelled. -/
def truthy : JSValue → Bool
  | .undefined => false
  | .null => false
  | .bool b => b
  | .num n => decide (n ≠ 0)
  | .str s => decide (s ≠ [])
  | .sym _ => true
  | .arr _ => true
  | .obj _ => true
  | .func _ => true

mutual

/-- `String(v)`: the platform's string coercion, `none` when it throws
(symbols cannot be converted to a string). -/
def jsToString : JSValue → Option JStr
  | .undefined => some "undefined".data
  | .null => some "null".data
  | .bool true => some "true".data
  | .bool false => some "false".data
  | .num n => some (toString n).data
  | .str s => some s
  | .sym _ => none
  | .arr vs => joinElems vs
  | .obj _ => some "[object Object]".data
  | .func _ => some "function".data

/-- `Array.prototype.join(',')` as used by array-to-string coercion:
`null`/`undefined` elements render empty, a symbol element throws. -/
def joinElems : List JSValue → Option JStr
  | [] => some []
  | v :: vs =>
    let hd : Option JStr :=
      match v with
      | .undefined => some []
      | .null => some []
      | w => jsToString w
    match hd, vs with
    | none, _ => none
    | some a, [] => some a
    | some a, w :: ws =>
      match joinElems (w :: ws) with
      | none => none
      | some b => some (a ++ ',' :: b)

end

/-- Escape for the JSON rendering of one character (quote and backslash). -/
def jsonQuoteChar (c : Char) : JStr :=
  if c = Char.ofNat 34 ∨ c = Char.ofNat 92 then [Char.ofNat 92, c] else [c]

/-- Escape for the JSON rendering of a string body. -/
def jsonEscape : JStr → JStr
  | [] => []
  | c :: cs => jsonQuoteChar c ++ jsonEscape cs

/-- A JSON string literal (double-quoted, escaped). -/
def jsonQuote (s : JStr) : JStr :=
  Char.ofNat 34 :: (jsonEscape s ++ [Char.ofNat 34])

mutual

/-- `JSON.stringify`: `none` when the value is dropped (undefined, symbols
and functions at top level or as object members). -/
def jsonV : JSValue → Option JStr
  | .undefined => none
  | .sym _ => none
  | .func _ => none
  | .null => some "null".data
  | .bool true => some "true".data
  | .bool false => some "false".data
  | .num n => some (toString n).data
  | .str s => some (jsonQuote s)
  | .arr vs => some (Char.ofNat 91 :: (jsonElems vs ++ [Char.ofNat 93]))
  | .obj fs => some (Char.ofNat 123 :: (jsonMembers fs ++ [Char.ofNat 125]))

/-- JSON array elements: dropped values render as `null` inside arrays. -/
def jsonElems : List JSValue → JStr
  | [] => []
  | v :: vs =>
    let hd := (jsonV v).getD "null".data
    match vs with
    | [] => hd
    | w :: ws => hd ++ ',' :: jsonElems (w :: ws)

/-- JSON object members: members whose value is dropped are skipped. -/
def jsonMembers : List (JStr × JSValue) → JStr
  | [] => []
  | (k, v) :: fs =>
    match jsonV v with
    | none => jsonMembers fs
    | some s =>
      let item := jsonQuote k ++ ':' :: s
      match jsonMembers fs with
      | [] => item
      | c :: cs => item ++ ',' :: (c :: cs)

end

/-- Top-level `JSON.stringify(value)` as called at src line 136 (always on a
non-null object there, where it always yields a string). -/
def jsonStringify (v : JSValue) : JStr :=
  (jsonV v).getD []

/-- Child arguments of the call (already-built nodes or plain strings). -/
inductive Child where
  | text (s : JStr)
  | nodeRef (id : Nat)
deriving DecidableEq

/-- The observable surfaces of the node being configured. -/
structure Node where
  /-- Keys `k` with `k in node` (own and inherited settable surface). -/
  propKeys : List JSKey := []
  /-- Property keys whose direct write raises (e.g. read-only SVG props). -/
  throwing : List JSKey := []
  /-- The property surface's written values. -/
  props : List (JSKey × JSValue) := []
  /-- The attribute surface. -/
  attrs : List (JStr × JStr) := []
  /-- The dataset sub-surface. -/
  dataset : List (JStr × JStr) := []
  /-- The class list (`DOMTokenList`, a set kept in insertion order). -/
  classes : List JStr := []
  /-- Registered listeners: event name and the argument list passed after it
  (`addEventListener(key, ...value)` stores `value` itself). -/
  listeners : List (JStr × List JSValue) := []
  /-- Appended children. -/
  childNodes : List Child := []

/-- `key in node`. -/
def Node.hasProp (n : Node) (k : JSKey) : Bool :=
  n.propKeys.any fun k' => decide (k' = k)

/-- Whether the direct property write `node[key] = v` raises. -/
def Node.throwsOn (n : Node) (k : JSKey) : Bool :=
  n.throwing.any fun k' => decide (k' = k)

/-- `node.setAttribute(name, val)` (name validation is platform-side and not
modelled). -/
def setAttr (n : Node) (name val : JStr) : Node :=
  { n with attrs := setA n.attrs name val }

/-- `node.hasAttribute(name)`. -/
def hasAttr (n : Node) (name : JStr) : Bool :=
  (lookupA n.attrs name).isSome

/-- `node.toggleAttribute(name, b)`: present (added empty if needed) when `b`,
removed when not. -/
def toggleAttr (n : Node) (name : JStr) (b : Bool) : Node :=
  if b then
    if hasAttr n name then n else { n with attrs := n.attrs ++ [(name, [])] }
  else
    { n with attrs := n.attrs.filter fun p => !decide (p.1 = name) }

/-- `node.addEventListener(event, ...args)` as a total recorder of its
argument list. -/
def addListener (n : Node) (event : JStr) (args : List JSValue) : Node :=
  { n with listeners := n.listeners ++ [(event, args)] }

/-- `DOMTokenList.add`: add each token once, keeping insertion order.  Token
validation (empty / whitespace tokens) is platform-side and not modelled. -/
def classAdd (cls : List JStr) (ts : List JStr) : List JStr :=
  ts.foldl (fun acc t => if acc.any (fun u => decide (u = t)) then acc else acc ++ [t]) cls

/-- `typeof value.handleEvent === 'function'` for an object's field list. -/
def hasHandleEvent (fields : List (JStr × JSValue)) : Bool :=
  match lookupA fields "handleEvent".data with
  | some (.func _) => true
  | _ => false

/-- `Reflect.ownKeys(value)` paired with the member reads `value[k]`, as the
`aria` rule uses it (src lines 55-59).  Throws (`none`) on primitives; array
objects expose their indices and `length`; a function object's own keys are
elided.  Object keys are modelled as strings (symbol-keyed members of a
sub-object play no role in any verified property). -/
def ownEntries : JSValue → Option (List (JStr × JSValue))
  | .obj fields => some fields
  | .arr vs =>
    some ((vs.enum.map fun p => ((toString p.1).data, p.2)) ++
      [("length".data, .num (vs.length : Int))])
  | .func _ => some []
  | _ => none

/-- The own *enumerable* entries `Object.assign` copies from its source
(src line 64): primitives contribute nothing (no throw), strings their
characters, arrays their elements. -/
def enumEntries : JSValue → List (JStr × JSValue)
  | .obj fields => fields
  | .arr vs => vs.enum.map fun p => ((toString p.1).data, p.2)
  | .str s => s.enum.map fun p => ((toString p.1).data, .str [p.2])
  | _ => []

/-- Resolver exceptions: `TypeError` (symbol coercions, `startsWith` on a
symbol, `ownKeys` on a primitive, spreading a non-iterable) and the
`ReferenceError` of src line 68. -/
inductive JSErr where
  | typeError
  | referenceError
deriving DecidableEq

/-- The outcome category a resolved pair ends in (spec section 3). -/
inductive Outcome where
  | propWrite
  | attrWrite
  | ariaExpand
  | datasetMerge
  | classListAdd
  | listenerAdd
  | ignored
deriving DecidableEq

/-- The attribute name the `aria` rule writes for a sub-key (src line 57):
`role` verbatim, otherwise `aria-` plus the lowercased sub-key. -/
def ariaName (k : JStr) : JStr :=
  if k = "role".data then k else "aria-".data ++ k.map Char.toLower

/-- The `aria` rule's loop (src lines 55-60): one `setAttribute` per entry,
with the member value coerced to a string (a symbol value throws). -/
def ariaFold (n : Node) : List (JStr × JSValue) → Except JSErr Node
  | [] => .ok n
  | (k, v) :: rest =>
    match jsToString v with
    | none => .error .typeError
    | some s => ariaFold (setAttr n (ariaName k) s) rest

/-- The same loop, as a pure fold, defined for coercible entries. -/
def ariaWriteAll (n : Node) (fs : List (JStr × JSValue)) : Node :=
  fs.foldl (fun m p => setAttr m (ariaName p.1) ((jsToString p.2).getD [])) n

/-- `Object.assign(node.dataset, value)` (src line 64): each copied entry is
string-coerced by the `DOMStringMap` setter; a symbol value throws. -/
def datasetFold (ds : List (JStr × JStr)) : List (JStr × JSValue) → Option (List (JStr × JStr))
  | [] => some ds
  | (k, v) :: rest =>
    match jsToString v with
    | none => none
    | some s => datasetFold (setA ds k s) rest

/-- The tokens produced by spreading `value` into `classList.add` (src
line 90): arrays spread their elements, strings their characters, anything
else is not iterable and throws; each token is string-coerced. -/
def tokensOf : List JSValue → Option (List JStr)
  | [] => some []
  | v :: vs =>
    match jsToString v, tokensOf vs with
    | some t, some ts => some (t :: ts)
    | _, _ => none

/-- See `tokensOf`: the iterable check of the spread itself. -/
def classTokens : JSValue → Option (List JStr)
  | .arr vs => tokensOf vs
  | .str s => some (s.map fun c => [c])
  | _ => none

/-- The final type-directed switch (src lines 123-147) on the (possibly
marker-stripped) key and value. -/
def typeSwitch (n : Node) (k : JStr) (v : JSValue) : Except JSErr (Node × Outcome) :=
  match v with
  | .bool b => .ok (toggleAttr n k b, .attrWrite)
  | .undefined => .ok (n, .ignored)
  | .null => .ok (n, .ignored)
  | .func _ => .ok (addListener n k [v], .listenerAdd)
  | .obj fields =>
    if hasHandleEvent fields then .ok (addListener n k [.obj fields], .listenerAdd)
    else .ok (setAttr n k (jsonStringify (.obj fields)), .attrWrite)
  | .arr vs => .ok (setAttr n k (jsonStringify (.arr vs)), .attrWrite)
  | .num m => .ok (setAttr n k (toString m).data, .attrWrite)
  | .str s => .ok (setAttr n k s, .attrWrite)
  | .sym _ => .error .typeError

/-- The listener-hint switch (src lines 108-120).  A symbol key reaching it
throws (`Symbol.prototype` has no `startsWith`).  A `?` key coerces the value
to a boolean, strips one marker character and falls through the `@` body,
whose `isArray` test then never fires; an `@` key with an array value spreads
it into `addEventListener`; otherwise the stripped key and value continue
into the type switch. -/
def prefixStage (n : Node) (key : JSKey) (v : JSValue) : Except JSErr (Node × Outcome) :=
  match key with
  | .sym _ => .error .typeError
  | .str s =>
    if s.head? = some '?' then typeSwitch n s.tail (.bool (truthy v))
    else if s.head? = some '@' then
      match v with
      | .arr vs => .ok (addListener n s.tail vs, .listenerAdd)
      | _ => typeSwitch n s.tail v
    else typeSwitch n s v

/-- The known-property branch (src lines 87-105): `classList` adds the spread
tokens; otherwise the direct write is attempted, and a throwing write is
caught and degraded to `setAttribute(key, value)` — which itself throws,
uncaught, when the key is a symbol or the value cannot be string-coerced. -/
def propStage (n : Node) (key : JSKey) (v : JSValue) : Except JSErr (Node × Outcome) :=
  if key = .str "classList".data then
    match classTokens v with
    | none => .error .typeError
    | some ts => .ok ({ n with classes := classAdd n.classes ts }, .classListAdd)
  else if n.throwsOn key then
    match key with
    | .sym _ => .error .typeError
    | .str s =>
      match jsToString v with
      | none => .error .typeError
      | some sv => .ok (setAttr n s sv, .attrWrite)
  else
    .ok ({ n with props := setA n.props key v }, .propWrite)

/-- The `class`/`html`/`text` retargets of the named-intent switch (src
lines 72-83): these aliases rename the key and fall through to the
known-property test; any other key falls through unchanged. -/
def retarget (key : JSKey) : JSKey :=
  if key = .str "class".data then .str "className".data
  else if key = .str "html".data then .str "innerHTML".data
  else if key = .str "text".data then .str "textContent".data
  else key

/-- One iteration of the options loop (src lines 49-147) for key `key` with
value `v`: the named-intent switch when the key is not a node property
(`aria`, `data`, `style`, and the `class`/`html`/`text` retargets), then the
known-property branch, then the prefix and type switches.  The `style` intent
reads `isSVG` (src line 68), a `const` block-scoped to the element-creation
branch (src line 30) and out of scope here, so reaching it raises a
`ReferenceError`. -/
def resolveKey (n : Node) (key : JSKey) (v : JSValue) : Except JSErr (Node × Outcome) :=
  if n.hasProp key then propStage n key v
  else if key = .str "aria".data then
    match ownEntries v with
    | none => .error .typeError
    | some fields =>
      match ariaFold n fields with
      | .error e => .error e
      | .ok n' => .ok (n', .ariaExpand)
  else if key = .str "data".data then
    match datasetFold n.dataset (enumEntries v) with
    | none => .error .typeError
    | some ds => .ok ({ n with dataset := ds }, .datasetMerge)
  else if key = .str "style".data then
    .error .referenceError
  else if n.hasProp (retarget key) then propStage n (retarget key) v
  else prefixStage n (retarget key) v

/-- The options loop (src line 47): own keys in iteration order, skipping the
consumed `is` hint when the customized-builtin creation path ran. -/
def resolveOptions (n : Node) (custom : Bool) : List (JSKey × JSValue) → Except JSErr Node
  | [] => .ok n
  | (k, v) :: rest =>
    if custom = true ∧ k = JSKey.str "is".data then resolveOptions n custom rest
    else
      match resolveKey n k v with
      | .error e => .error e
      | .ok (n', _) => resolveOptions n' custom rest

/-- The document collaborator: single-result selector lookup and the three
creation calls (`createElement`, `createElement` with `is`,
`createElementNS` in the SVG namespace). -/
structure Doc where
  query : JStr → Option Node
  create : JStr → Node
  createIs : JStr → JSValue → Node
  createNS : JStr → Node

/-- The first argument of the call: a tag / selector string or a node. -/
inductive Tag where
  | str (s : JStr)
  | node (n : Node)

/-- The option bag: the `document` field (a foreign object, held separately)
and the own key/value pairs in iteration order. -/
structure Config where
  document : Option Doc := none
  pairs : List (JSKey × JSValue) := []

/-- The read `options.is` (src line 37); absent keys read as `undefined`. -/
def Config.isVal (c : Config) : JSValue :=
  (lookupA c.pairs (JSKey.str "is".data)).getD .undefined

/-- The tail of the call (src lines 47-152): resolve all options on the node,
append the children when at least one was supplied, return the node. -/
def finishNode (c : Config) (custom : Bool) (cs : List Child) (n : Node) :
    Except JSErr (Option Node) :=
  match resolveOptions n custom c.pairs with
  | .error e => .error e
  | .ok n' =>
    .ok (some (if cs.isEmpty then n' else { n' with childNodes := n'.childNodes ++ cs }))

/-- The default export (src lines 16-153).  `ambient` is the process-wide
global `document`; `options.document || document` picks the scope.  A string
tag starting with `<` is a selector lookup that may return `null`; `svg` and
`svg:`-prefixed tags create namespaced nodes; other strings create plain
elements, through the customized-builtin path when `options.is` is truthy
(which marks the `is` key as consumed); a non-string tag is used as the node. -/
def configure (ambient : Doc) (tag : Tag) (c : Config) (cs : List Child) :
    Except JSErr (Option Node) :=
  match tag with
  | .node n => finishNode c false cs n
  | .str s =>
    if s.head? = some '<' then
      match (c.document.getD ambient).query s.tail with
      | none => .ok none
      | some n => finishNode c false cs n
    else if s = "svg".data then finishNode c false cs ((c.document.getD ambient).createNS s)
    else if "svg:".data.isPrefixOf s then
      finishNode c false cs ((c.document.getD ambient).createNS (s.drop 4))
    else if truthy c.isVal then
      finishNode c true cs ((c.document.getD ambient).createIs s c.isVal)
    else finishNode c false cs ((c.document.getD ambient).create s)

/-- A node with no settable surface at all, as `key in node` sees a plain
object. -/
def blankNode : Node := {}

/-- A document whose lookups find nothing and whose creations yield bare
nodes; enough to exercise the engine on concrete inputs. -/
def nullDoc : Doc :=
  { query := fun _ => none
    create := fun _ => blankNode
    createIs := fun _ _ => blankNode
    createNS := fun _ => blankNode }

/-- A value the type-directed fallback registers as a listener: a bare
callable, or an object exposing a callable `handleEvent`. -/
def isListenerValue : JSValue → Bool
  | .func _ => true
  | .obj fields => hasHandleEvent fields
  | _ => false

/-- The per-pair frame: the pair's outcome category is the only surface the
resolver touched; the membership surfaces and the children are never touched
by the options loop, and an ignored pair leaves the node unchanged. -/
def framed (n n' : Node) (o : Outcome) : Prop :=
  n'.propKeys = n.propKeys ∧ n'.throwing = n.throwing ∧ n'.childNodes = n.childNodes ∧
  (o ≠ .propWrite → n'.props = n.props) ∧
  (o ≠ .attrWrite → o ≠ .ariaExpand → n'.attrs = n.attrs) ∧
  (o ≠ .datasetMerge → n'.dataset = n.dataset) ∧
  (o ≠ .classListAdd → n'.classes = n.classes) ∧
  (o ≠ .listenerAdd → n'.listeners = n.listeners) ∧
  (o = .ignored → n' = n)

/-! Small facts about the node mutators and the resolver stages. -/

theorem setAttr_propKeys (n : Node) (k v : JStr) : (setAttr n k v).propKeys = n.propKeys := rfl

theorem setAttr_throwing (n : Node) (k v : JStr) : (setAttr n k v).throwing = n.throwing := rfl

theorem setAttr_props (n : Node) (k v : JStr) : (setAttr n k v).props = n.props := rfl

theorem setAttr_dataset (n : Node) (k v : JStr) : (setAttr n k v).dataset = n.dataset := rfl

theorem setAttr_classes (n : Node) (k v : JStr) : (setAttr n k v).classes = n.classes := rfl

theorem setAttr_listeners (n : Node) (k v : JStr) : (setAttr n k v).listeners = n.listeners := rfl

theorem setAttr_childNodes (n : Node) (k v : JStr) : (setAttr n k v).childNodes = n.childNodes := rfl

theorem toggleAttr_propKeys (n : Node) (k : JStr) (b : Bool) :
    (toggleAttr n k b).propKeys = n.propKeys := by
  unfold toggleAttr; split_ifs <;> rfl

theorem toggleAttr_throwing (n : Node) (k : JStr) (b : Bool) :
    (toggleAttr n k b).throwing = n.throwing := by
  unfold toggleAttr; split_ifs <;> rfl

theorem toggleAttr_props (n : Node) (k : JStr) (b : Bool) :
    (toggleAttr n k b).props = n.props := by
  unfold toggleAttr; split_ifs <;> rfl

theorem toggleAttr_dataset (n : Node) (k : JStr) (b : Bool) :
    (toggleAttr n k b).dataset = n.dataset := by
  unfold toggleAttr; split_ifs <;> rfl

theorem toggleAttr_classes (n : Node) (k : JStr) (b : Bool) :
    (toggleAttr n k b).classes = n.classes := by
  unfold toggleAttr; split_ifs <;> rfl

theorem toggleAttr_listeners (n : Node) (k : JStr) (b : Bool) :
    (toggleAttr n k b).listeners = n.listeners := by
  unfold toggleAttr; split_ifs <;> rfl

theorem toggleAttr_childNodes (n : Node) (k : JStr) (b : Bool) :
    (toggleAttr n k b).childNodes = n.childNodes := by
  unfold toggleAttr; split_ifs <;> rfl

/-- A string key whose first character differs is a different key, whatever
the tails are. -/
theorem cons_ne_lit {c d : Char} {s t : JStr} (h : ¬ c = d) : c :: s ≠ d :: t := by
  intro he; injection he with h1 _; exact h h1

/-- Association lookup finds what `setA` just wrote. -/
theorem lookupA_setA {κ ν : Type} [DecidableEq κ] (l : List (κ × ν)) (k : κ) (v : ν) :
    lookupA (setA l k v) k = some v := by
  induction l with
  | nil => simp [setA, lookupA]
  | cons p r ih =>
    obtain ⟨k', v'⟩ := p
    by_cases hk : k' = k <;> simp [setA, lookupA, hk, ih]

/-- Reduction of the resolver for a string key that is no node property and
none of the six named intents: it continues into the listener-hint stage. -/
theorem resolveKey_fallback (n : Node) (s : JStr) (v : JSValue)
    (h : n.hasProp (.str s) = false)
    (h1 : s ≠ "aria".data) (h2 : s ≠ "data".data) (h3 : s ≠ "style".data)
    (h4 : s ≠ "class".data) (h5 : s ≠ "html".data) (h6 : s ≠ "text".data) :
    resolveKey n (.str s) v = prefixStage n (.str s) v := by
  simp [resolveKey, retarget, h, h1, h2, h3, h4, h5, h6]

/-- The option-resolution tail never produces the `null` return. -/
theorem finishNode_ne_none (c : Config) (b : Bool) (cs : List Child) (n : Node) :
    finishNode c b cs n ≠ .ok none := by
  unfold finishNode; split <;> simp

/-- The `aria` loop writes one attribute per entry when every member value
admits string coercion. -/
theorem ariaFold_ok (fs : List (JStr × JSValue)) : ∀ n : Node,
    (∀ p ∈ fs, (jsToString p.2).isSome = true) →
    ariaFold n fs = .ok (ariaWriteAll n fs) := by
  induction fs with
  | nil => intro n _; rfl
  | cons p fs ih =>
    intro n h
    obtain ⟨k, v⟩ := p
    obtain ⟨s, hs⟩ := Option.isSome_iff_exists.mp (h _ (List.mem_cons_self _ _))
    have hrest : ∀ p ∈ fs, (jsToString p.2).isSome = true :=
      fun p hp => h p (List.mem_cons_of_mem _ hp)
    simp only [ariaFold, ariaWriteAll, List.foldl_cons, hs]
    exact ih (setAttr n (ariaName k) s) hrest ▸ by simp [ariaWriteAll, hs]

/-- C1: the spec claims `resolve(node, configuration)` never throws, for any
own key (string or symbol) and any value, with symbol keys and symbol values
handled without error.  The code contradicts this (and its own typing layer,
which admits `Record<string | symbol, unknown>` options, and the comment
"loop through options keys and symbols"): a symbol own key that is not a node
property falls through the named-intent switch into
`key.startsWith('?')` (src line 109), and `Symbol.prototype` has no
`startsWith`, so the call raises a TypeError. -/
theorem c1_symbol_key_raises :
    resolveKey blankNode (.sym 0) (.num 1) = .error .typeError := rfl

/-- C2: the spec claims the `style` named-intent rule writes the `style`
attribute on namespaced nodes and the CSS text otherwise.  In the code the
guard reads `isSVG` (src line 68), a `const` declared inside the
element-creation block (src line 30) and out of scope in the options loop, so
the rule raises a ReferenceError whenever it runs — here on a node without a
`style` property, configured with a string `style` option. -/
theorem c2_style_rule_raises :
    resolveKey blankNode (.str "style".data) (.str "color:red".data)
      = .error .referenceError := rfl

/-- C10: when the tag is a selector string whose lookup in the chosen
document misses, `configure` returns `null` whatever the rest of the
configuration and children are: no option pair is resolved (even pairs whose
resolution would throw) and no child is appended. -/
theorem c10_null_is_early (a : Doc) (c : Config) (cs : List Child) (sel : JStr)
    (h : (c.document.getD a).query sel = none) :
    configure a (.str ('<' :: sel)) c cs = .ok none := by
  simp [configure, h]

/-- C10 witness: a document with no match returns `null` even though the bag
holds a symbol-keyed pair whose resolution would raise, and children were
supplied. -/
theorem c10_null_is_early_witness :
    configure nullDoc (.str ('<' :: "#missing".data))
      ⟨none, [(.sym 0, .num 1), (.str "aria".data, .num 5)]⟩
      [Child.text "x".data] = .ok none :=
  c10_null_is_early nullDoc _ _ _ rfl

/-- C3 (amended): `configure` returns `null` exactly when the tag is a
selector string (leading `<`) whose lookup in the chosen document matches
nothing; every other outcome is either the configured node or a propagated
exception, never `null`. -/
theorem c3_null_iff_lookup_miss (a : Doc) (t : Tag) (c : Config) (cs : List Child) :
    configure a t c cs = .ok none ↔
      ∃ sel : JStr, t = .str ('<' :: sel) ∧ (c.document.getD a).query sel = none := by
  constructor
  · intro h
    cases t with
    | node n =>
      exact absurd h (finishNode_ne_none c false cs n)
    | str s =>
      simp only [configure] at h
      by_cases hlt : s.head? = some '<'
      · rw [if_pos hlt] at h
        obtain ⟨c0, s', rfl⟩ : ∃ c0 s', s = c0 :: s' := by
          cases s with
          | nil => simp at hlt
          | cons a b => exact ⟨a, b, rfl⟩
        have hc0 : c0 = '<' := by simpa using hlt
        subst hc0
        cases hq : (c.document.getD a).query (('<' :: s').tail) with
        | none => exact ⟨s', rfl, hq⟩
        | some m =>
          rw [hq] at h
          exact absurd h (finishNode_ne_none c false cs m)
      · rw [if_neg hlt] at h
        split_ifs at h <;> exact absurd h (finishNode_ne_none _ _ _ _)
  · rintro ⟨sel, rfl, hq⟩
    simp [configure, hq]

/-- C3 counterexample: the claim as stated says every non-selector input
returns the configured node, but a configuration holding a symbol own key
that is no node property makes the whole call raise a TypeError instead of
returning the node. -/
theorem c3_counterexample :
    configure nullDoc (.str "div".data) ⟨none, [(.sym 0, .num 1)]⟩ []
      = .error .typeError := rfl

/-- C4: a `?`-prefixed key that is not a node property coerces the value to a
strict boolean, strips the marker, and falls through the `@` body (a boolean
is never an array), so the pair ends as a boolean presence/absence attribute
toggle under the marker-stripped key. -/
theorem c4_question_marker_toggles (n : Node) (rest : JStr) (v : JSValue)
    (h : n.hasProp (.str ('?' :: rest)) = false) :
    resolveKey n (.str ('?' :: rest)) v
      = .ok (toggleAttr n rest (truthy v), .attrWrite) := by
  rw [resolveKey_fallback n _ v h (cons_ne_lit (by decide)) (cons_ne_lit (by decide))
    (cons_ne_lit (by decide)) (cons_ne_lit (by decide)) (cons_ne_lit (by decide))
    (cons_ne_lit (by decide))]
  simp [prefixStage, typeSwitch]

/-- C4 witness: `?checked` with the truthy value 5 toggles the `checked`
attribute on. -/
theorem c4_question_marker_toggles_witness :
    resolveKey blankNode (.str ('?' :: "checked".data)) (.num 5)
      = .ok (toggleAttr blankNode "checked".data true, .attrWrite) :=
  c4_question_marker_toggles blankNode "checked".data (.num 5) rfl


/-- C6: an `@`-prefixed key that is not a node property strips the marker;
an array value is spread into `addEventListener` (first element the listener,
the remaining elements its options, recorded here as the argument list); a
bare callable or `handleEvent` object is registered under the stripped key
with no options. -/
theorem c6_at_marker_registers (n : Node) (rest : JStr)
    (h : n.hasProp (.str ('@' :: rest)) = false) :
    (∀ vs : List JSValue,
        resolveKey n (.str ('@' :: rest)) (.arr vs)
          = .ok (addListener n rest vs, .listenerAdd)) ∧
    (∀ v : JSValue, isListenerValue v = true →
        resolveKey n (.str ('@' :: rest)) v
          = .ok (addListener n rest [v], .listenerAdd)) := by
  have hred : ∀ v : JSValue,
      resolveKey n (.str ('@' :: rest)) v = prefixStage n (.str ('@' :: rest)) v :=
    fun v => resolveKey_fallback n _ v h (cons_ne_lit (by decide)) (cons_ne_lit (by decide))
      (cons_ne_lit (by decide)) (cons_ne_lit (by decide)) (cons_ne_lit (by decide))
      (cons_ne_lit (by decide))
  constructor
  · intro vs
    rw [hred]
    simp [prefixStage]
  · intro v hv
    rw [hred]
    cases v <;> simp_all [isListenerValue, prefixStage, typeSwitch]

/-- C6 witness: `@click` with `[fn, options]` records the pair as the
listener argument list; `@press` with a bare function registers it with no
options. -/
theorem c6_at_marker_registers_witness :
    resolveKey blankNode (.str ('@' :: "click".data))
        (.arr [.func 0, .obj [("once".data, .bool true)]])
      = .ok (addListener blankNode "click".data
          [.func 0, .obj [("once".data, .bool true)]], .listenerAdd) ∧
    resolveKey blankNode (.str ('@' :: "press".data)) (.func 1)
      = .ok (addListener blankNode "press".data [.func 1], .listenerAdd) :=
  ⟨(c6_at_marker_registers blankNode "click".data rfl).1 _,
   (c6_at_marker_registers blankNode "press".data rfl).2 _ rfl⟩

/-- C7 (amended): the `aria` named-intent rule on a string-keyed mapping
writes one attribute per sub-key — `role` verbatim, every other sub-key as
`aria-` plus the lowercased sub-key — provided every member value admits the
platform's string coercion (is not a symbol). -/
theorem c7_aria_expansion (n : Node) (fs : List (JStr × JSValue))
    (hp : n.hasProp (.str "aria".data) = false)
    (hv : ∀ p ∈ fs, (jsToString p.2).isSome = true) :
    resolveKey n (.str "aria".data) (.obj fs)
      = .ok (ariaWriteAll n fs, .ariaExpand) := by
  simp [resolveKey, hp, ownEntries, ariaFold_ok fs n hv]

/-- C7 witness: `aria: { label: "x", role: "button" }` writes
`aria-label="x"` and `role="button"`. -/
theorem c7_aria_expansion_witness :
    resolveKey blankNode (.str "aria".data)
        (.obj [("label".data, .str "x".data), ("role".data, .str "button".data)])
      = .ok (ariaWriteAll blankNode
          [("label".data, .str "x".data), ("role".data, .str "button".data)],
        .ariaExpand) :=
  c7_aria_expansion blankNode _ rfl (by decide)

/-- C7 counterexample: the claim quantifies over all mapping values, but a
symbol-valued sub-key makes the rule raise a TypeError (setAttribute cannot
stringify a symbol) instead of writing an attribute for each sub-key. -/
theorem c7_counterexample :
    resolveKey blankNode (.str "aria".data) (.obj [("label".data, .sym 0)])
      = .error .typeError := rfl

/-- C8 (amended): for a string key that is none of the six named-intent
names, not a node property, and free of the `?`/`@` markers, a boolean value
toggles a presence/absence attribute under the key itself, and a
`null`/`undefined` value is silently ignored with no mutation.  (A
marker-bearing key is first stripped — see the counterexample.) -/
theorem c8_bool_toggle_null_ignored (n : Node) (s : JStr) (v : JSValue)
    (hp : n.hasProp (.str s) = false)
    (h1 : s ≠ "aria".data) (h2 : s ≠ "data".data) (h3 : s ≠ "style".data)
    (h4 : s ≠ "class".data) (h5 : s ≠ "html".data) (h6 : s ≠ "text".data)
    (hq : s.head? ≠ some '?') (ha : s.head? ≠ some '@') :
    (∀ b : Bool, v = .bool b →
        resolveKey n (.str s) v = .ok (toggleAttr n s b, .attrWrite)) ∧
    (v = .null ∨ v = .undefined → resolveKey n (.str s) v = .ok (n, .ignored)) := by
  have hred : resolveKey n (.str s) v = prefixStage n (.str s) v :=
    resolveKey_fallback n s v hp h1 h2 h3 h4 h5 h6
  constructor
  · rintro b rfl
    rw [hred]
    simp [prefixStage, typeSwitch, hq, ha]
  · rintro (rfl | rfl) <;> rw [hred] <;> simp [prefixStage, typeSwitch, hq, ha]

/-- C8 witness: a plain boolean-valued key toggles the attribute on, and a
`null` value is ignored. -/
theorem c8_bool_toggle_null_ignored_witness :
    resolveKey blankNode (.str "hidden".data) (.bool true)
      = .ok (toggleAttr blankNode "hidden".data true, .attrWrite) ∧
    resolveKey blankNode (.str "hidden".data) .null
      = .ok (blankNode, .ignored) :=
  ⟨(c8_bool_toggle_null_ignored blankNode "hidden".data (.bool true) rfl (by decide)
      (by decide) (by decide) (by decide) (by decide) (by decide) (by decide)
      (by decide)).1 true rfl,
   (c8_bool_toggle_null_ignored blankNode "hidden".data .null rfl (by decide)
      (by decide) (by decide) (by decide) (by decide) (by decide) (by decide)
      (by decide)).2 (Or.inl rfl)⟩

/-- C8 counterexample: the claim says the boolean attribute lands under the
key `k` itself, but for `k = "@x"` (not a node property, boolean value) the
marker is stripped first: the attribute is recorded under `x` and no `@x`
attribute exists. -/
theorem c8_counterexample :
    resolveKey blankNode (.str ('@' :: "x".data)) (.bool true)
      = .ok (toggleAttr blankNode "x".data true, .attrWrite) ∧
    hasAttr (toggleAttr blankNode "x".data true) ('@' :: "x".data) = false :=
  ⟨rfl, rfl⟩

/-- C9 (amended): for a string-named settable property other than
`classList` whose direct write raises, the failure is caught and the value is
written as a string attribute under the same key name, provided the value
admits the platform's string coercion (is not a symbol); the attribute is
then observably set. -/
theorem c9_throwing_write_degrades (n : Node) (s : JStr) (v : JSValue) (sv : JStr)
    (hin : n.hasProp (.str s) = true)
    (hth : n.throwsOn (.str s) = true)
    (hcl : s ≠ "classList".data)
    (hv : jsToString v = some sv) :
    resolveKey n (.str s) v = .ok (setAttr n s sv, .attrWrite) ∧
    lookupA (setAttr n s sv).attrs s = some sv := by
  constructor
  · simp [resolveKey, hin, propStage, hcl, hth, hv]
  · simp [setAttr, lookupA_setA]

/-- C9 witness: a read-only `width` property written with `"5"` degrades to
the attribute `width="5"`. -/
theorem c9_throwing_write_degrades_witness :
    resolveKey ⟨[.str "width".data], [.str "width".data], [], [], [], [], [], []⟩
        (.str "width".data) (.str "5".data)
      = .ok (setAttr ⟨[.str "width".data], [.str "width".data], [], [], [], [], [], []⟩
          "width".data "5".data, .attrWrite) ∧
    lookupA (setAttr ⟨[.str "width".data], [.str "width".data], [], [], [], [], [], []⟩
        "width".data "5".data).attrs "width".data = some "5".data :=
  c9_throwing_write_degrades _ "width".data (.str "5".data) "5".data rfl rfl
    (by decide) rfl

/-- C9 counterexample: the claim says the call never surfaces the fault, but
when the value is a symbol the catch-block's own `setAttribute` throws an
uncaught TypeError. -/
theorem c9_counterexample :
    resolveKey ⟨[.str "id".data], [.str "id".data], [], [], [], [], [], []⟩
      (.str "id".data) (.sym 0) = .error .typeError := rfl


theorem framed_setAttr (n : Node) (k s : JStr) : framed n (setAttr n k s) .attrWrite := by
  simp [framed, setAttr]

theorem framed_toggle (n : Node) (k : JStr) (b : Bool) :
    framed n (toggleAttr n k b) .attrWrite := by
  simp [framed, toggleAttr_propKeys, toggleAttr_throwing, toggleAttr_childNodes,
    toggleAttr_props, toggleAttr_dataset, toggleAttr_classes, toggleAttr_listeners]

theorem framed_listener (n : Node) (k : JStr) (args : List JSValue) :
    framed n (addListener n k args) .listenerAdd := by
  simp [framed, addListener]

theorem framed_ignored (n : Node) : framed n n .ignored := by
  simp [framed]

theorem framed_prop (n : Node) (k : JSKey) (v : JSValue) :
    framed n { n with props := setA n.props k v } .propWrite := by
  simp [framed]

theorem framed_class (n : Node) (ts : List JStr) :
    framed n { n with classes := classAdd n.classes ts } .classListAdd := by
  simp [framed]

theorem framed_dataset (n : Node) (ds : List (JStr × JStr)) :
    framed n { n with dataset := ds } .datasetMerge := by
  simp [framed]

/-- The type-directed switch stays inside its outcome's surface. -/
theorem typeSwitch_framed (n : Node) (k : JStr) (v : JSValue) (n' : Node) (o : Outcome)
    (h : typeSwitch n k v = .ok (n', o)) : framed n n' o := by
  cases v with
  | bool b =>
    simp only [typeSwitch, Except.ok.injEq, Prod.mk.injEq] at h
    obtain ⟨rfl, rfl⟩ := h
    exact framed_toggle n k b
  | undefined =>
    simp only [typeSwitch, Except.ok.injEq, Prod.mk.injEq] at h
    obtain ⟨rfl, rfl⟩ := h
    exact framed_ignored n
  | null =>
    simp only [typeSwitch, Except.ok.injEq, Prod.mk.injEq] at h
    obtain ⟨rfl, rfl⟩ := h
    exact framed_ignored n
  | func i =>
    simp only [typeSwitch, Except.ok.injEq, Prod.mk.injEq] at h
    obtain ⟨rfl, rfl⟩ := h
    exact framed_listener n k _
  | obj fields =>
    simp only [typeSwitch] at h
    split_ifs at h with hh <;>
      · simp only [Except.ok.injEq, Prod.mk.injEq] at h
        obtain ⟨rfl, rfl⟩ := h
        first
        | exact framed_listener n k _
        | exact framed_setAttr n k _
  | arr vs =>
    simp only [typeSwitch, Except.ok.injEq, Prod.mk.injEq] at h
    obtain ⟨rfl, rfl⟩ := h
    exact framed_setAttr n k _
  | num m =>
    simp only [typeSwitch, Except.ok.injEq, Prod.mk.injEq] at h
    obtain ⟨rfl, rfl⟩ := h
    exact framed_setAttr n k _
  | str s2 =>
    simp only [typeSwitch, Except.ok.injEq, Prod.mk.injEq] at h
    obtain ⟨rfl, rfl⟩ := h
    exact framed_setAttr n k _
  | sym i => simp [typeSwitch] at h

/-- The listener-hint stage stays inside its outcome's surface. -/
theorem prefixStage_framed (n : Node) (key : JSKey) (v : JSValue) (n' : Node) (o : Outcome)
    (h : prefixStage n key v = .ok (n', o)) : framed n n' o := by
  cases key with
  | sym i => simp [prefixStage] at h
  | str s =>
    simp only [prefixStage] at h
    split_ifs at h with hq ha
    · exact typeSwitch_framed _ _ _ _ _ h
    · cases v <;> try exact typeSwitch_framed _ _ _ _ _ h
      simp only [Except.ok.injEq, Prod.mk.injEq] at h
      obtain ⟨rfl, rfl⟩ := h
      exact framed_listener n _ _
    · exact typeSwitch_framed _ _ _ _ _ h

/-- The known-property branch stays inside its outcome's surface. -/
theorem propStage_framed (n : Node) (key : JSKey) (v : JSValue) (n' : Node) (o : Outcome)
    (h : propStage n key v = .ok (n', o)) : framed n n' o := by
  unfold propStage at h
  split_ifs at h with hcl hth
  · cases hct : classTokens v with
    | none => rw [hct] at h; simp at h
    | some ts =>
      rw [hct] at h
      simp only [Except.ok.injEq, Prod.mk.injEq] at h
      obtain ⟨rfl, rfl⟩ := h
      exact framed_class n ts
  · cases key with
    | sym i => simp at h
    | str s =>
      cases hjs : jsToString v with
      | none => rw [hjs] at h; simp at h
      | some sv =>
        rw [hjs] at h
        simp only [Except.ok.injEq, Prod.mk.injEq] at h
        obtain ⟨rfl, rfl⟩ := h
        exact framed_setAttr n s sv
  · simp only [Except.ok.injEq, Prod.mk.injEq] at h
    obtain ⟨rfl, rfl⟩ := h
    exact framed_prop n key v

/-- The `aria` loop touches only the attribute surface. -/
theorem ariaFold_nonAttr (fs : List (JStr × JSValue)) : ∀ n n' : Node,
    ariaFold n fs = .ok n' →
    n'.propKeys = n.propKeys ∧ n'.throwing = n.throwing ∧ n'.childNodes = n.childNodes ∧
    n'.props = n.props ∧ n'.dataset = n.dataset ∧ n'.classes = n.classes ∧
    n'.listeners = n.listeners := by
  induction fs with
  | nil =>
    intro n n' h
    simp [ariaFold] at h
    subst h
    exact ⟨rfl, rfl, rfl, rfl, rfl, rfl, rfl⟩
  | cons p fs ih =>
    intro n n' h
    obtain ⟨k, v⟩ := p
    cases hjs : jsToString v with
    | none => simp [ariaFold, hjs] at h
    | some s =>
      simp only [ariaFold, hjs] at h
      simpa [setAttr] using ih _ _ h

/-- C5 (amended): whenever the resolution of a single key/value pair
completes without throwing, it reports exactly one outcome category and the
node differs from its input only inside that category's surface; a throwing
pair (see the counterexample) completes in no category at all. -/
theorem c5_single_outcome (n : Node) (k : JSKey) (v : JSValue) (n' : Node) (o : Outcome)
    (h : resolveKey n k v = .ok (n', o)) : framed n n' o := by
  unfold resolveKey at h
  by_cases hp : n.hasProp k = true
  · rw [if_pos hp] at h
    exact propStage_framed _ _ _ _ _ h
  · rw [if_neg hp] at h
    by_cases haria : k = JSKey.str "aria".data
    · rw [if_pos haria] at h
      cases ho : ownEntries v with
      | none => simp [ho] at h
      | some fields =>
        simp only [ho] at h
        cases haf : ariaFold n fields with
        | error e => simp [haf] at h
        | ok m =>
          simp only [haf, Except.ok.injEq, Prod.mk.injEq] at h
          obtain ⟨rfl, rfl⟩ := h
          obtain ⟨e1, e2, e3, e4, e5, e6, e7⟩ := ariaFold_nonAttr fields n m haf
          simp [framed, e1, e2, e3, e4, e5, e6, e7]
    · rw [if_neg haria] at h
      by_cases hdata : k = JSKey.str "data".data
      · rw [if_pos hdata] at h
        cases hd : datasetFold n.dataset (enumEntries v) with
        | none => simp [hd] at h
        | some ds =>
          simp only [hd, Except.ok.injEq, Prod.mk.injEq] at h
          obtain ⟨rfl, rfl⟩ := h
          exact framed_dataset n ds
      · rw [if_neg hdata] at h
        by_cases hstyle : k = JSKey.str "style".data
        · rw [if_pos hstyle] at h
          simp at h
        · rw [if_neg hstyle] at h
          by_cases hp2 : n.hasProp (retarget k) = true
          · rw [if_pos hp2] at h
            exact propStage_framed _ _ _ _ _ h
          · rw [if_neg hp2] at h
            exact prefixStage_framed _ _ _ _ _ h

/-- C5 witness: a plain string-valued attribute pair completes in the
attribute-write category and leaves every other surface untouched. -/
theorem c5_single_outcome_witness :
    framed blankNode (setAttr blankNode "title".data "t".data) .attrWrite :=
  c5_single_outcome blankNode (.str "title".data) (.str "t".data)
    (setAttr blankNode "title".data "t".data) .attrWrite rfl

/-- C5 counterexample: the claim says exactly one outcome category occurs
for every pair, but an `aria` pair with a primitive value raises a TypeError
(`Reflect.ownKeys` on a non-object) and completes in no category. -/
theorem c5_counterexample :
    resolveKey blankNode (.str "aria".data) (.num 5) = .error .typeError := rfl
